import Mathlib

set_option maxRecDepth 8000

/-!
Shallow embedding of the STCP transport engine of `proj2Stcp/transport.c`
(repository macaddino/Personal_NetworkProj1), together with theorems

The embedding follows the C source function by function.  Machine
integers of the source (`int`, `tcp_seq`, window counters) are modelled
as `Int` respectively `Nat`; none of the verified claims exercises
32-bit wrap-around, and the specification (section 4.2) fixes plain
integer order for sequence comparisons, matching the source.

The simclist library (`simclist.c`) is part of the repository build but
its source is not under `src/`; everything taken from it is modelled
from the specification text and marked as such below.
-/

namespace STCP

/-- Constant MAXPAYLOAD of transport.c (total segment size cap, octets). -/
def MAXPAYLOAD : Int := 536

/-- Constant LOCALRECVLEN of transport.c (receive buffer and initial window). -/
def LOCALRECVLEN : Int := 3072

/-- Constant CONGESTIONWIN of transport.c (fixed congestion ceiling). -/
def CONGESTIONWIN : Int := 3072

/-- Constant TIMEOUTSECS of transport.c (per-entry retransmit deadline offset). -/
def TIMEOUTSECS : Int := 1

/-- Flag bit TH_FIN (netinet value 0x01). -/
def TH_FIN : Nat := 1

/-- Flag bit TH_SYN (netinet value 0x02). -/
def TH_SYN : Nat := 2

/-- Flag bit TH_ACK (netinet value 0x10). -/
def TH_ACK : Nat := 16

/-- Size of `struct tcphdr` in octets, the value of `sizeof(struct tcphdr)`
used throughout transport.c as `headerLen`. -/
def headerLen : Nat := 20

/-- Payload capacity of one segment: `MAXPAYLOAD - sizeof(struct tcphdr)`. -/
def maxPackDataLen : Nat := 516

/-- The helper `min` of transport.c (two-way minimum on C ints). -/
def cmin (x y : Int) : Int := if x < y then x else y

/-- A `struct timespec` value: seconds and nanoseconds. -/
structure Timespec where
  tv_sec : Int
  tv_nsec : Int
deriving DecidableEq, Repr

/-- The helper `timespec_compare` of transport.c. -/
def timespec_compare (left right : Timespec) : Int :=
  if left.tv_sec < right.tv_sec then -1
  else if left.tv_sec > right.tv_sec then 1
  else if left.tv_nsec < right.tv_nsec then -1
  else if left.tv_nsec > right.tv_nsec then 1
  else 0

/-- Deadline stamping performed by `send_packet`: the current time with
TIMEOUTSECS added to the seconds field. -/
def stamp (now : Timespec) : Timespec :=
  { tv_sec := now.tv_sec + TIMEOUTSECS, tv_nsec := now.tv_nsec }

/-- The connection-state enumeration of transport.c. -/
inductive CState where
  | LISTEN
  | SYN_RECEIVED
  | SYN_SENT
  | ESTABLISHED
  | FINWAIT1
  | FINWAIT2
  | CLOSE_WAIT
  | LAST_ACK
  | CLOSED
deriving DecidableEq, Repr

/-- The fields of `context_t` that the transport logic reads or writes
(scratch byte buffers and the unused lastByteAckd/lastByteWrittenToNet/
nextByteExpected counters are omitted; no verified code path reads them). -/
structure Context where
  done : Bool
  connection_state : CState
  initial_sequence_num : Nat
  ourWindowSize : Int
  theirWindowSize : Int
  lastByteReceived : Int
  nextSeqExpected : Nat
  lastSentSeq : Nat
  ackNum : Nat
deriving DecidableEq, Repr

/-- One segment on the wire: the `struct tcphdr` fields transport.c uses
plus the total on-wire length (header plus payload octets).  The data
offset field is fixed at 5 words everywhere and is not repeated here. -/
structure Wire where
  th_seq : Nat
  th_ack : Nat
  th_flags : Nat
  th_win : Int
  len : Nat
deriving DecidableEq, Repr

/-- The `packetData` record of transport.c.  The `packet` byte image is
represented by the header fields that were written into it (`seqNum`,
`flags`, `win`); `timeoutPid` and `buffLoc` are never read by the logic
under verification and are omitted. -/
structure PacketData where
  packetLen : Nat
  numTimeout : Int
  ackd : Bool
  seqNum : Nat
  ackNum : Nat
  flags : Nat
  win : Int
  waitSecs : Timespec
deriving DecidableEq, Repr

/-- Wire image stored inside a retransmit entry, as re-sent by
`send_packet` (locally built packets never set `th_ack`). -/
def PacketData.toWire (e : PacketData) : Wire :=
  { th_seq := e.seqNum, th_ack := 0, th_flags := e.flags, th_win := e.win, len := e.packetLen }

/-- Test of `flags & TH_SYN` as used in transport.c. -/
def hasSyn (f : Nat) : Bool := f.land TH_SYN != 0

/-- Test of `flags & TH_FIN` as used in transport.c. -/
def hasFin (f : Nat) : Bool := f.land TH_FIN != 0

/-- Test of `flags & TH_ACK` as used in transport.c. -/
def hasAck (f : Nat) : Bool := f.land TH_ACK != 0

/-- The `seeker` callback of transport.c: an entry matches a key when its
`ackNum` equals the key. -/
def seeker (e : PacketData) (key : Nat) : Bool := e.ackNum == key

/-- simclist `list_seek`: first entry matching the seeker, scanning from
the head of the list. -/
def list_seek (l : List PacketData) (key : Nat) : Option PacketData :=
  l.find? (fun e => seeker e key)

/-- The `seq_comparator` callback of transport.c (simclist comparator
convention: positive when the first element is the smaller one). -/
def seq_comparator (a b : PacketData) : Int :=
  (if a.seqNum < b.seqNum then 1 else 0) - (if a.seqNum > b.seqNum then 1 else 0)

/-- Modelled from the spec: ordered insertion by `seqNum`.  The simclist
source (`simclist.c`) is not under `src/`; the specification (section 3)
states that both queues are kept sorted ascending by `seq` under
`seq_comparator`, which this insertion realises. -/
def insertSorted (e : PacketData) : List PacketData → List PacketData
  | [] => [e]
  | x :: r => if e.seqNum ≤ x.seqNum then e :: x :: r else x :: insertSorted e r

/-- Modelled from the spec: simclist `list_sort` with `seq_comparator`,
returning the queue sorted ascending by `seqNum` (specification
section 3: entries are kept sorted by `seq`). -/
def list_sort : List PacketData → List PacketData
  | [] => []
  | x :: r => insertSorted x (list_sort r)

/-- simclist `list_locate` under `seq_comparator`: index of the first
entry with the given sequence number (length when absent). -/
def locateSeq (l : List PacketData) (s : Nat) : Nat :=
  l.findIdx (fun e => e.seqNum == s)

/-- One iteration of the handshake receive loop of `transport_init`
(transport.c lines 184-270).  The result is `none` when one of the
`assert` statements of the source fails, otherwise the updated context
and the list of segments passed to `stcp_network_send`. -/
def handshake_step (ctx : Context) (r : Wire) : Option (Context × List Wire) :=
  if (hasAck r.th_flags || (hasAck r.th_flags && hasSyn r.th_flags))
      && (ctx.connection_state == CState.SYN_RECEIVED) then
    if hasAck r.th_flags && hasSyn r.th_flags then
      if ctx.lastSentSeq = r.th_ack then
        let c1 : Context :=
          { ctx with initial_sequence_num := ctx.lastSentSeq,
                     ackNum := r.th_seq + 1,
                     nextSeqExpected := r.th_seq + 1,
                     theirWindowSize := cmin CONGESTIONWIN r.th_win }
        let out : Wire :=
          { th_seq := c1.initial_sequence_num, th_ack := c1.ackNum,
            th_flags := TH_ACK, th_win := c1.ourWindowSize, len := headerLen }
        some ({ c1 with connection_state := CState.ESTABLISHED }, [out])
      else none
    else
      if ctx.lastSentSeq = r.th_ack then
        some ({ ctx with initial_sequence_num := ctx.lastSentSeq,
                         theirWindowSize := cmin CONGESTIONWIN r.th_win,
                         connection_state := CState.ESTABLISHED }, [])
      else none
  else if hasSyn r.th_flags
      && (ctx.connection_state == CState.SYN_SENT || ctx.connection_state == CState.LISTEN) then
    let c1 : Context :=
      { ctx with ackNum := r.th_seq + 1,
                 nextSeqExpected := r.th_seq + 1,
                 theirWindowSize := cmin CONGESTIONWIN r.th_win }
    let out : Wire :=
      { th_seq := c1.initial_sequence_num, th_ack := c1.ackNum,
        th_flags := TH_SYN ||| TH_ACK, th_win := c1.ourWindowSize, len := headerLen }
    some ({ c1 with lastSentSeq := c1.initial_sequence_num + 1,
                    connection_state := CState.SYN_RECEIVED }, [out])
  else if (hasSyn r.th_flags && hasAck r.th_flags)
      && (ctx.connection_state == CState.SYN_SENT) then
    if ctx.lastSentSeq = r.th_ack then
      let c1 : Context :=
        { ctx with initial_sequence_num := ctx.lastSentSeq,
                   ackNum := r.th_seq + 1,
                   nextSeqExpected := r.th_seq + 1,
                   theirWindowSize := cmin CONGESTIONWIN r.th_win }
      let out : Wire :=
        { th_seq := c1.initial_sequence_num, th_ack := c1.ackNum,
          th_flags := TH_ACK, th_win := c1.ourWindowSize, len := headerLen }
      some ({ c1 with connection_state := CState.ESTABLISHED }, [out])
    else none
  else
    some (ctx, [])

/-- Inner scan of the deadline-selection code of `control_loop`
(transport.c lines 681-687): every later entry is compared against the
FIRST entry of the queue, and `smallestTimeoutAck` is overwritten by the
ack number of each entry that beats the first. -/
def scanGo (first : PacketData) (acc : Nat) : List PacketData → Nat
  | [] => acc
  | p :: rest =>
      scanGo first (if timespec_compare first.waitSecs p.waitSecs == 1 then p.ackNum else acc) rest

/-- The value of `smallestTimeoutAck` after the scan of transport.c
lines 673-688 (`-1`, i.e. `none`, on an empty queue). -/
def smallestTimeoutAck : List PacketData → Option Nat
  | [] => none
  | first :: rest => some (scanGo first first.ackNum rest)

/-- The entry `smallestTimeoutPack` re-looked-up by ack number
(transport.c lines 692-696). -/
def chosenTrig (l : List PacketData) : Option PacketData :=
  match smallestTimeoutAck l with
  | none => none
  | some a => list_seek l a

/-- The timespec passed to `stcp_wait_for_event` (transport.c lines
690-704): the wait deadline of the chosen entry, or `none` (a NULL
pointer, unbounded wait) when the queue is empty. -/
def chosenDeadline (l : List PacketData) : Option Timespec :=
  (chosenTrig l).map (fun e => e.waitSecs)

/-- Minimum of two timespecs under the order of `timespec_compare`. -/
def tsMin (a b : Timespec) : Timespec :=
  if a.tv_sec < b.tv_sec ∨ (a.tv_sec = b.tv_sec ∧ a.tv_nsec ≤ b.tv_nsec) then a else b

/-- Written from the claim wording, for comparison with `chosenDeadline`:
the minimum `deadline` over all live entries of the queue, `none` when
the queue is empty (specification section 4.3, `earliest_deadline`). -/
def minDeadlineSpec : List PacketData → Option Timespec
  | [] => none
  | e :: rest =>
      some (match minDeadlineSpec rest with
            | none => e.waitSecs
            | some m => tsMin e.waitSecs m)

/-- The pure-ACK response built at transport.c lines 346-353, 365-372 and
479-486 (all three sites fill the header identically from the current
context): seq is the local `initial_sequence_num`, ack the current
`ackNum`, window the current `ourWindowSize`. -/
def mkAckResponse (ctx : Context) : Wire :=
  { th_seq := ctx.initial_sequence_num, th_ack := ctx.ackNum,
    th_flags := TH_ACK, th_win := ctx.ourWindowSize, len := headerLen }

/-- The connection-state change performed on processing a FIN
(transport.c lines 413-422 and 457-466): FINWAIT1 or FINWAIT2 go to
CLOSED with `done` set, every other state goes to CLOSE_WAIT. -/
def finTransition (ctx : Context) : Context :=
  if ctx.connection_state == CState.FINWAIT1 || ctx.connection_state == CState.FINWAIT2 then
    { ctx with connection_state := CState.CLOSED, done := true }
  else
    { ctx with connection_state := CState.CLOSE_WAIT }

/-- The entry inserted into `outOfOrderBuf` for an out-of-order segment
(transport.c lines 380-392): the received wire image with
`ackNum = seq + length`. -/
def mkOooEntry (seg : Wire) : PacketData :=
  { packetLen := seg.len, numTimeout := 0, ackd := false,
    seqNum := seg.th_seq, ackNum := seg.th_seq + seg.len,
    flags := seg.th_flags, win := seg.th_win, waitSecs := { tv_sec := 0, tv_nsec := 0 } }

/-- Result of the reassembly-drain loop: updated context, remaining
buffer, payloads passed to `stcp_app_send` (identified by sequence
number and payload length), and the number of `stcp_fin_received`
signals raised. -/
structure DrainOut where
  ctx : Context
  buf : List PacketData
  appSends : List (Nat × Nat)
  finSigs : Nat
deriving DecidableEq, Repr

/-- The loop over `outOfOrderBuf` of transport.c lines 425-476, run after
an in-order segment with sequence number `hseq` was accepted.  Entries
whose `seqNum` equals `hseq` are marked for deletion without action;
entries with `seqNum` greater than `hseq` are delivered to the app (when
their stored flags equal TH_SYN) or trigger the FIN transition (flags
equal TH_FIN) and are marked for deletion; entries with smaller `seqNum`
stay.  The recorded indices are then deleted back to front, which on the
seq-sorted buffer removes exactly the marked entries; the remaining
buffer is therefore the sublist of entries below `hseq`, in order. -/
def drainLoop (hseq : Nat) : Context → List PacketData → DrainOut
  | ctx, [] => { ctx := ctx, buf := [], appSends := [], finSigs := 0 }
  | ctx, e :: rest =>
    if e.seqNum = hseq then
      drainLoop hseq ctx rest
    else if hseq < e.seqNum then
      if e.flags == TH_SYN then
        let ctx1 : Context :=
          { ctx with nextSeqExpected := ctx.nextSeqExpected + e.packetLen,
                     ackNum := e.seqNum + e.packetLen }
        let r := drainLoop hseq ctx1 rest
        { r with appSends := (e.seqNum, e.packetLen - headerLen) :: r.appSends }
      else if e.flags == TH_FIN then
        let r := drainLoop hseq (finTransition ctx) rest
        { r with finSigs := r.finSigs + 1 }
      else
        drainLoop hseq ctx rest
    else
      let r := drainLoop hseq ctx rest
      { r with buf := e :: r.buf }

/-- The loop of transport.c lines 499-512: walk `sentPackets` from the
head and latch `ackd` on every entry whose `seqNum` is strictly below
the target, stopping at the first entry that is not. -/
def markSmaller (target : Nat) : List PacketData → List PacketData
  | [] => []
  | e :: r =>
    if e.seqNum < target then { e with ackd := true } :: markSmaller target r
    else e :: r

/-- The in-place `packData->ackd = 1` of transport.c line 496: the first
entry matching the ack number (the one `list_seek` returned) gets its
`ackd` flag set. -/
def setAckdFirst : List PacketData → Nat → List PacketData
  | [], _ => []
  | e :: r, a => if seeker e a then { e with ackd := true } :: r else e :: setAckdFirst r a

/-- The cumulative-ACK marking of transport.c lines 492-513: when some
entry of `sentPackets` has `ackNum` equal to the received ack, set its
`ackd` flag and run `markSmaller` over the queue; otherwise leave the
queue unchanged. -/
def mark_acked (l : List PacketData) (a : Nat) : List PacketData :=
  match list_seek l a with
  | none => l
  | some found => markSmaller found.seqNum (setAckdFirst l a)

/-- Result of `unpack_and_recv_data`: updated context and queues, the
segments passed to `stcp_network_send`, the payloads passed to
`stcp_app_send`, and the number of `stcp_fin_received` signals. -/
structure UnpackOut where
  ctx : Context
  sent : List PacketData
  ooo : List PacketData
  emits : List Wire
  appSends : List (Nat × Nat)
  finSigs : Nat
deriving DecidableEq, Repr

/-- The function `unpack_and_recv_data` of transport.c (lines 317-517),
processing one received segment `seg` whose total on-wire length is
`seg.len`.  The two consecutive `if` statements at source lines 378 and
397 test complementary conditions on `nextSeqExpected` (the insert
branch does not modify it), so they are embedded as one if/else. -/
def unpack_and_recv_data (seg : Wire) (ctx0 : Context)
    (sent ooo : List PacketData) : UnpackOut :=
  let totalPackLen := seg.len
  let packDataLen := seg.len - headerLen
  let ctx := { ctx0 with theirWindowSize := cmin CONGESTIONWIN seg.th_win }
  if hasSyn seg.th_flags || hasFin seg.th_flags then
    if seg.th_seq < ctx.ackNum then
      let ctx1 := { ctx with ourWindowSize := ctx.ourWindowSize + totalPackLen }
      { ctx := ctx1, sent := sent, ooo := ooo,
        emits := [mkAckResponse ctx1], appSends := [], finSigs := 0 }
    else if ooo.any (fun e => seeker e seg.th_ack) then
      let ctx1 := { ctx with ourWindowSize := ctx.ourWindowSize + totalPackLen }
      { ctx := ctx1, sent := sent, ooo := ooo,
        emits := [mkAckResponse ctx1], appSends := [], finSigs := 0 }
    else
      if ctx.nextSeqExpected = seg.th_seq then
        if seg.th_flags == TH_SYN then
          let ctx2 : Context :=
            { ctx with nextSeqExpected := ctx.nextSeqExpected + totalPackLen,
                       ackNum := seg.th_seq + totalPackLen,
                       ourWindowSize := ctx.ourWindowSize + totalPackLen }
          let d := drainLoop seg.th_seq ctx2 ooo
          { ctx := d.ctx, sent := sent, ooo := d.buf,
            emits := [mkAckResponse d.ctx],
            appSends := (seg.th_seq, packDataLen) :: d.appSends,
            finSigs := d.finSigs }
        else if seg.th_flags == TH_FIN then
          let d := drainLoop seg.th_seq (finTransition ctx) ooo
          { ctx := d.ctx, sent := sent, ooo := d.buf,
            emits := [mkAckResponse d.ctx],
            appSends := d.appSends,
            finSigs := 1 + d.finSigs }
        else
          let d := drainLoop seg.th_seq ctx ooo
          { ctx := d.ctx, sent := sent, ooo := d.buf,
            emits := [mkAckResponse d.ctx],
            appSends := d.appSends,
            finSigs := d.finSigs }
      else
        let ctx1 : Context := { ctx with ourWindowSize := ctx.ourWindowSize + totalPackLen }
        { ctx := ctx1, sent := sent, ooo := list_sort (ooo ++ [mkOooEntry seg]),
          emits := [mkAckResponse ctx1], appSends := [], finSigs := 0 }
  else if seg.th_flags == TH_ACK then
    let sent1 := mark_acked sent seg.th_ack
    let ctx1 := { ctx with ourWindowSize := ctx.ourWindowSize + totalPackLen }
    { ctx := ctx1, sent := sent1, ooo := ooo, emits := [], appSends := [], finSigs := 0 }
  else
    { ctx := ctx, sent := sent, ooo := ooo, emits := [], appSends := [], finSigs := 0 }

/-- The function `send_packet` of transport.c (lines 593-612) for a
freshly built entry: the deadline is stamped (here already stamped at
construction), the entry is appended and the queue re-sorted unless an
entry with the same `ackNum` is already present, and the packet image is
transmitted either way. -/
def send_packet_new (pd : PacketData) (sent : List PacketData) :
    List PacketData × List Wire :=
  if sent.any (fun e => seeker e pd.ackNum) then (sent, [pd.toWire])
  else (list_sort (sent ++ [pd]), [pd.toWire])

/-- The entry built for one data chunk by `pack_and_send_data`
(transport.c lines 553-578), under the data-segment flag convention of
the source (TH_SYN marks data). -/
def mkDataEntry (now : Timespec) (ctx : Context) (totalPackLen : Nat) : PacketData :=
  { packetLen := totalPackLen, numTimeout := 0, ackd := false,
    seqNum := ctx.initial_sequence_num,
    ackNum := ctx.initial_sequence_num + totalPackLen,
    flags := TH_SYN, win := ctx.ourWindowSize, waitSecs := stamp now }

/-- The segmentation loop of `pack_and_send_data` (transport.c lines
541-586), phrased over the number of application octets still to be
packed (`recvBufLen - recvBufIdx`).  Each chunk takes at most
`maxPackDataLen` payload octets; the `initial_sequence_num` counter
(used by the source as the next send sequence number) advances by the
full segment length after each send. -/
def packLoop (now : Timespec) (remaining : Nat) (ctx : Context)
    (sent : List PacketData) : Context × List PacketData × List Wire :=
  if _h : remaining = 0 then (ctx, sent, [])
  else
    let packDataLen := if remaining - 1 < maxPackDataLen then remaining else maxPackDataLen
    let totalPackLen := packDataLen + headerLen
    let pd := mkDataEntry now ctx totalPackLen
    let s1 := send_packet_new pd sent
    let ctx1 : Context :=
      { ctx with lastSentSeq := ctx.initial_sequence_num + totalPackLen,
                 initial_sequence_num := ctx.initial_sequence_num + totalPackLen }
    let r := packLoop now (remaining - packDataLen) ctx1 s1.1
    (r.1, r.2.1, s1.2 ++ r.2.2)
termination_by remaining
decreasing_by
  simp only [maxPackDataLen]
  split <;> omega

/-- The function `pack_and_send_data` of transport.c (lines 525-589),
invoked with `recvBufLen` application octets. -/
def pack_and_send_data (now : Timespec) (recvBufLen : Nat) (ctx : Context)
    (sent : List PacketData) : Context × List PacketData × List Wire :=
  packLoop now recvBufLen ctx sent

/-- The function `stcp_fin_received_from_app` of transport.c (lines
803-841): build a FIN entry at the current `initial_sequence_num`
without advancing it, move CLOSE_WAIT to LAST_ACK and every other state
to FINWAIT1, then `send_packet` the entry.  The built entry is returned
as the last component for use in the theorems; it is also the entry
inserted into the queue. -/
def stcp_fin_received_from_app (now : Timespec) (ctx : Context)
    (sent : List PacketData) : Context × List PacketData × List Wire × PacketData :=
  let pd : PacketData :=
    { packetLen := headerLen, numTimeout := 0, ackd := false,
      seqNum := ctx.initial_sequence_num,
      ackNum := ctx.initial_sequence_num + headerLen,
      flags := TH_FIN, win := ctx.ourWindowSize, waitSecs := stamp now }
  let ctx1 : Context :=
    if ctx.connection_state == CState.CLOSE_WAIT then
      { ctx with connection_state := CState.LAST_ACK }
    else
      { ctx with connection_state := CState.FINWAIT1 }
  let s1 := send_packet_new pd sent
  (ctx1, s1.1, s1.2, pd)

/-- Test for the four states of transport.c lines 750-753 in which a
timeout drops the triggering entry regardless of its retry count. -/
def closing4 (st : CState) : Bool :=
  st == CState.CLOSED || st == CState.LAST_ACK
    || st == CState.FINWAIT1 || st == CState.FINWAIT2

/-- Test for the three states of transport.c lines 756-759 in which
dropping a FIN entry tears the connection down. -/
def closing3 (st : CState) : Bool :=
  st == CState.LAST_ACK || st == CState.FINWAIT1 || st == CState.FINWAIT2

/-- Refresh of `waitSecs` on a list suffix, the effect of calling
`send_packet` (which restamps the deadline of every packet it sends) on
each entry of the suffix in place. -/
def refreshAll (t : Timespec) (l : List PacketData) : List PacketData :=
  l.map (fun e => { e with waitSecs := t })

/-- The TIMEOUT branch of `control_loop` (transport.c lines 746-783).
The triggering entry is the one selected by the deadline scan
(`chosenTrig`); when the queue is empty no timeout can fire (the wait
was unbounded) and the state is returned unchanged.  In the drop branch
the entry is deleted at the index `list_locate` finds for it; in the
retransmit branch the triggering entry and every entry after it are
re-sent through `send_packet`, which restamps each of their deadlines,
and `numTimeout` is incremented on the triggering entry only. -/
def timeoutStep (now : Timespec) (ctx : Context) (sent : List PacketData) :
    Context × List PacketData × List Wire :=
  match chosenTrig sent with
  | none => (ctx, sent, [])
  | some trig =>
    if closing4 ctx.connection_state || trig.numTimeout == 6 then
      let ctx1 : Context :=
        if trig.flags == TH_FIN && closing3 ctx.connection_state then
          { ctx with connection_state := CState.CLOSED, done := true }
        else ctx
      (ctx1, list_sort ((sent.eraseIdx (locateSeq sent trig.seqNum))), [])
    else
      let i := locateSeq sent trig.seqNum
      let trigR : PacketData :=
        { trig with waitSecs := stamp now, numTimeout := trig.numTimeout + 1 }
      let subs := sent.drop (i + 1)
      (ctx, sent.take i ++ trigR :: refreshAll (stamp now) subs,
       trig.toWire :: subs.map PacketData.toWire)

/-- The acked-entry state transitions applied while sweeping
`sentPackets` (transport.c lines 636-658): for each entry already
`ackd`, an acked FIN in FINWAIT1 moves the state to FINWAIT2 and an
acked FIN in LAST_ACK closes the connection and sets `done`. -/
def sweepCtx : Context → List PacketData → Context
  | ctx, [] => ctx
  | ctx, e :: rest =>
    if e.ackd then
      let c1 :=
        if e.flags == TH_FIN && ctx.connection_state == CState.FINWAIT1 then
          { ctx with connection_state := CState.FINWAIT2 }
        else ctx
      let c2 :=
        if e.flags == TH_FIN && c1.connection_state == CState.LAST_ACK then
          { c1 with connection_state := CState.CLOSED, done := true }
        else c1
      sweepCtx c2 rest
    else sweepCtx ctx rest

/-- Per-connection engine state of the control loop: the context plus
the two queues. -/
structure EngineState where
  ctx : Context
  sent : List PacketData
  ooo : List PacketData
deriving DecidableEq, Repr

/-- The head of each `control_loop` iteration (transport.c lines
631-671): sort `sentPackets`, apply the acked-FIN state transitions, and
delete every acked entry (recorded indices, deleted back to front, which
removes exactly the acked entries). -/
def sweepPhase (s : EngineState) : EngineState :=
  let l := list_sort s.sent
  { s with ctx := sweepCtx s.ctx l, sent := l.filter (fun e => e.ackd == false) }

/-- The read-size cap `maxPackLen` computed before `stcp_network_recv`
(transport.c lines 708-736), from the window and buffer position of the
current context. -/
def maxPackLenOf (ctx : Context) : Int :=
  if ctx.lastByteReceived ≥ LOCALRECVLEN then
    let m := cmin ctx.ourWindowSize MAXPAYLOAD
    if ctx.ourWindowSize - MAXPAYLOAD < 0 then cmin m (MAXPAYLOAD - ctx.ourWindowSize) else m
  else
    let m0 :=
      if ctx.ourWindowSize < LOCALRECVLEN - ctx.lastByteReceived then ctx.ourWindowSize
      else LOCALRECVLEN - ctx.lastByteReceived
    let m1 := cmin m0 MAXPAYLOAD
    let m2 := cmin m1 ctx.ourWindowSize
    if ctx.ourWindowSize - MAXPAYLOAD < 0 then cmin m2 (MAXPAYLOAD - ctx.ourWindowSize) else m2

/-- The NETWORK_DATA branch of `control_loop` (transport.c lines
705-744): possibly wrap the receive buffer, read `seg.len` octets
(`seg.len` is the value `stcp_network_recv` returned, bounded by the
cap—see `ValidEvent`), debit the window, and feed the segment to
`unpack_and_recv_data` when non-empty. -/
def networkStep (s : EngineState) (seg : Wire) : EngineState :=
  let c0 :=
    if s.ctx.lastByteReceived ≥ LOCALRECVLEN then { s.ctx with lastByteReceived := 0 }
    else s.ctx
  let c1 : Context :=
    { c0 with ourWindowSize := c0.ourWindowSize - (seg.len : Int),
              lastByteReceived := c0.lastByteReceived + (seg.len : Int) }
  if 0 < seg.len then
    let u := unpack_and_recv_data seg c1 s.sent s.ooo
    { ctx := u.ctx, sent := u.sent, ooo := u.ooo }
  else
    { s with ctx := c1 }

/-- The events one `control_loop` iteration can dispatch on, carrying
the data the environment supplies: a received segment, the wall-clock
instant of a timeout, or the application octet count of a write. -/
inductive Event where
  | net (seg : Wire)
  | timeout (now : Timespec)
  | appData (now : Timespec) (n : Nat)
  | appClose (now : Timespec)

/-- One full `control_loop` iteration: the acked-entry sweep followed by
the dispatch on the woken event. -/
def stepFn (s : EngineState) (e : Event) : EngineState :=
  let s1 := sweepPhase s
  match e with
  | Event.net seg => networkStep s1 seg
  | Event.timeout now =>
      let r := timeoutStep now s1.ctx s1.sent
      { s1 with ctx := r.1, sent := r.2.1 }
  | Event.appData now n =>
      let r := pack_and_send_data now n s1.ctx s1.sent
      { s1 with ctx := r.1, sent := r.2.1 }
  | Event.appClose now =>
      let r := stcp_fin_received_from_app now s1.ctx s1.sent
      { s1 with ctx := r.1, sent := r.2.1 }

/-- Environment obligations on an event: a network read never returns
more than the cap `control_loop` passes to `stcp_network_recv` (the cap
is computed from the context of the iteration, which the sweep phase
does not change). -/
def ValidEvent (s : EngineState) : Event → Prop
  | Event.net seg => (seg.len : Int) ≤ maxPackLenOf s.ctx
  | Event.timeout _ => True
  | Event.appData _ _ => True
  | Event.appClose _ => True

/-- Engine state right after the handshake of `transport_init`
completes: ESTABLISHED, both queues empty, full window.  The handshake
code never touches `ourWindowSize`, so it still holds its initial value
LOCALRECVLEN here. -/
def initState (iss rcv0 : Nat) : EngineState :=
  { ctx := { done := false, connection_state := CState.ESTABLISHED,
             initial_sequence_num := iss, ourWindowSize := LOCALRECVLEN,
             theirWindowSize := LOCALRECVLEN, lastByteReceived := 0,
             nextSeqExpected := rcv0, lastSentSeq := iss + 1, ackNum := rcv0 },
    sent := [], ooo := [] }

/-- States the control loop can reach from the post-handshake state
under environment-valid events. -/
inductive Reachable : EngineState → Prop
  | init : ∀ iss rcv0, Reachable (initState iss rcv0)
  | step : ∀ s e, Reachable s → ValidEvent s e → Reachable (stepFn s e)

/-! Theorems -/

/-- Context of an active opener directly after its SYN was sent
(transport.c lines 158-172): SYN_SENT with iss 100, `lastSentSeq` 101. -/
def c1ctx : Context :=
  { done := false, connection_state := CState.SYN_SENT, initial_sequence_num := 100,
    ourWindowSize := 3072, theirWindowSize := 3072, lastByteReceived := 0,
    nextSeqExpected := 0, lastSentSeq := 101, ackNum := 0 }

/-- The well-formed SYN+ACK reply of the peer: flags SYN|ACK (18) and
ack equal to iss+1. -/
def c1seg : Wire :=
  { th_seq := 200, th_ack := 101, th_flags := TH_SYN ||| TH_ACK, th_win := 3072, len := 20 }

/-- C1: in SYN_SENT, a SYN+ACK whose ack equals iss+1 is claimed to move
the engine to ESTABLISHED with a pure ACK.  Evaluating the handshake
step of the source shows the opposite: the plain-SYN branch (transport.c
line 221) tests only the SYN bit and is checked before the SYN+ACK
branch (line 245), so the engine replies with a SYN+ACK segment and
moves to SYN_RECEIVED; the branch implementing the claimed behaviour
(lines 245-270) is unreachable. -/
theorem c1_syn_sent_synack_misdispatch :
    (handshake_step c1ctx c1seg).map
        (fun r => (r.1.connection_state, r.2.map Wire.th_flags))
      = some (CState.SYN_RECEIVED, [TH_SYN ||| TH_ACK])
    ∧ CState.SYN_RECEIVED ≠ CState.ESTABLISHED
    ∧ TH_SYN ||| TH_ACK ≠ TH_ACK := by
  decide

/-- A retransmission queue of three live entries, sorted by `seq`, whose
deadlines are not monotone along the queue: 5s, 3s, 4s. -/
def c3queue : List PacketData :=
  [ { packetLen := 536, numTimeout := 0, ackd := false, seqNum := 1, ackNum := 537,
      flags := TH_SYN, win := 3072, waitSecs := { tv_sec := 5, tv_nsec := 0 } },
    { packetLen := 536, numTimeout := 0, ackd := false, seqNum := 537, ackNum := 1073,
      flags := TH_SYN, win := 3072, waitSecs := { tv_sec := 3, tv_nsec := 0 } },
    { packetLen := 536, numTimeout := 0, ackd := false, seqNum := 1073, ackNum := 1609,
      flags := TH_SYN, win := 3072, waitSecs := { tv_sec := 4, tv_nsec := 0 } } ]

/-- C3: the deadline passed to the event wait is claimed to be the
minimum over all live entries.  On `c3queue` the scan of transport.c
lines 673-700 selects the 4-second entry, not the 3-second minimum,
because every entry is compared against the first entry instead of the
running minimum and the last entry that beats the first wins.  The
empty-queue half of the claim (no deadline, unbounded wait) does hold. -/
theorem c3_deadline_scan_not_minimum :
    chosenDeadline c3queue = some { tv_sec := 4, tv_nsec := 0 }
    ∧ minDeadlineSpec c3queue = some { tv_sec := 3, tv_nsec := 0 }
    ∧ ({ tv_sec := 4, tv_nsec := 0 } : Timespec) ≠ { tv_sec := 3, tv_nsec := 0 }
    ∧ chosenDeadline [] = none := by
  decide

/-- Established context expecting sequence number 100 next. -/
def c2ctx : Context :=
  { done := false, connection_state := CState.ESTABLISHED, initial_sequence_num := 50,
    ourWindowSize := 2000, theirWindowSize := 3072, lastByteReceived := 0,
    nextSeqExpected := 100, lastSentSeq := 51, ackNum := 100 }

/-- An in-order data segment: seq 100, 100 payload octets. -/
def c2seg : Wire :=
  { th_seq := 100, th_ack := 0, th_flags := TH_SYN, th_win := 3072, len := 120 }

/-- A reassembly-queue entry far above the arrival: seq 500, so after the
arrival advances rcv_nxt to 220 a gap 220..499 remains below it. -/
def c2ooo : List PacketData :=
  [ { packetLen := 120, numTimeout := 0, ackd := false, seqNum := 500, ackNum := 620,
      flags := TH_SYN, win := 3072, waitSecs := { tv_sec := 0, tv_nsec := 0 } } ]

/-- C2 counterexample: accepting in-order seq 100 advances rcv_nxt to
220, and the buffered segment at seq 500 still has a gap below it;
the claim says it is neither delivered nor removed.  Evaluating the
source shows it is both delivered to the application and removed (the
drain condition of transport.c line 441 is `seqNum > header->th_seq`,
not equality with the advancing rcv_nxt), and the emitted cumulative ACK
even jumps to 620. -/
theorem c2_gap_segment_delivered_counterexample :
    (unpack_and_recv_data c2seg c2ctx [] c2ooo).ooo = []
    ∧ (unpack_and_recv_data c2seg c2ctx [] c2ooo).appSends = [(100, 100), (500, 100)]
    ∧ (unpack_and_recv_data c2seg c2ctx [] c2ooo).ctx.ackNum = 620
    ∧ (220 : Nat) < 500 := by
  decide

/-- C2 amended: the drain run after accepting an in-order segment with
sequence number `hseq` keeps exactly the buffered entries with
`seqNum < hseq`; every entry with `seqNum > hseq` is processed
regardless of gaps — delivered to the application when its stored flags
equal TH_SYN, counted as a FIN signal when they equal TH_FIN — and every
entry with `seqNum = hseq` is removed without action. -/
theorem c2_drain_processes_everything_above_arrival
    (hseq : Nat) (ctx : Context) (ooo : List PacketData) :
    (drainLoop hseq ctx ooo).buf = ooo.filter (fun e => decide (e.seqNum < hseq))
    ∧ (drainLoop hseq ctx ooo).appSends
        = (ooo.filter (fun e => decide (hseq < e.seqNum) && (e.flags == TH_SYN))).map
            (fun e => (e.seqNum, e.packetLen - headerLen))
    ∧ (drainLoop hseq ctx ooo).finSigs
        = (ooo.filter (fun e =>
            decide (hseq < e.seqNum) && !(e.flags == TH_SYN) && (e.flags == TH_FIN))).length := by
  induction ooo generalizing ctx with
  | nil => simp [drainLoop]
  | cons e rest ih =>
    rcases Nat.lt_trichotomy e.seqNum hseq with h | h | h
    · have h1 : ¬ e.seqNum = hseq := Nat.ne_of_lt h
      have h2 : ¬ hseq < e.seqNum := Nat.lt_asymm h
      obtain ⟨b, a, f⟩ := ih ctx
      simp [drainLoop, h1, h2, h, b, a, f]
    · subst h
      obtain ⟨b, a, f⟩ := ih ctx
      simp [drainLoop, b, a, f]
    · have h1 : ¬ e.seqNum = hseq := (Nat.ne_of_lt h).symm
      have h2 : ¬ e.seqNum < hseq := Nat.lt_asymm h
      by_cases h3 : e.flags == TH_SYN
      · obtain ⟨b, a, f⟩ := ih
          { ctx with nextSeqExpected := ctx.nextSeqExpected + e.packetLen,
                     ackNum := e.seqNum + e.packetLen }
        simp [drainLoop, h1, h2, h, h3, b, a, f]
      · by_cases h4 : e.flags == TH_FIN
        · obtain ⟨b, a, f⟩ := ih (finTransition ctx)
          simp [drainLoop, h1, h2, h, h3, h4, b, a, f]
        · obtain ⟨b, a, f⟩ := ih ctx
          simp [drainLoop, h1, h2, h, h3, h4, b, a, f]

/-- Established context expecting sequence number 300 next. -/
def c5ctx : Context :=
  { done := false, connection_state := CState.ESTABLISHED, initial_sequence_num := 50,
    ourWindowSize := 3000, theirWindowSize := 3072, lastByteReceived := 0,
    nextSeqExpected := 300, lastSentSeq := 51, ackNum := 300 }

/-- An in-order FIN segment at seq 300 (header only, length 20). -/
def c5seg : Wire :=
  { th_seq := 300, th_ack := 0, th_flags := TH_FIN, th_win := 3072, len := 20 }

/-- C5 counterexample: the claim says an in-order FIN advances rcv_nxt
by its length (to 320) and the ACK carries the advanced value.
Evaluating the source on an in-order FIN shows neither `ackNum` nor
`nextSeqExpected` moves (the FIN branch of transport.c lines 410-423
contains no advance) and the emitted ACK carries the old value 300. -/
theorem c5_inorder_fin_counterexample :
    (unpack_and_recv_data c5seg c5ctx [] []).ctx.ackNum = 300
    ∧ (unpack_and_recv_data c5seg c5ctx [] []).ctx.nextSeqExpected = 300
    ∧ (unpack_and_recv_data c5seg c5ctx [] []).emits.map Wire.th_ack = [300]
    ∧ (300 : Nat) ≠ 300 + c5seg.len := by
  decide

/-- C5 amended: with an empty reassembly queue and an in-order segment
(`seg.th_seq` equal to both rcv_nxt trackers), a data segment (flags
exactly TH_SYN) advances `ackNum` and `nextSeqExpected` by the full
segment length, is delivered, and the single emitted ACK carries the
advanced value; an in-order FIN (flags exactly TH_FIN) raises the FIN
signal but advances neither tracker, and the single emitted ACK carries
the unchanged rcv_nxt. -/
theorem c5_inorder_advance_amended (ctx : Context) (sent : List PacketData) (seg : Wire)
    (hexp : ctx.nextSeqExpected = seg.th_seq)
    (hseq : seg.th_seq = ctx.ackNum) :
    (seg.th_flags = TH_SYN →
      (unpack_and_recv_data seg ctx sent []).ctx.ackNum = ctx.ackNum + seg.len
      ∧ (unpack_and_recv_data seg ctx sent []).ctx.nextSeqExpected
          = ctx.nextSeqExpected + seg.len
      ∧ (unpack_and_recv_data seg ctx sent []).emits.map Wire.th_ack
          = [ctx.ackNum + seg.len]
      ∧ (unpack_and_recv_data seg ctx sent []).appSends
          = [(seg.th_seq, seg.len - headerLen)])
    ∧ (seg.th_flags = TH_FIN →
      (unpack_and_recv_data seg ctx sent []).ctx.ackNum = ctx.ackNum
      ∧ (unpack_and_recv_data seg ctx sent []).ctx.nextSeqExpected = ctx.nextSeqExpected
      ∧ (unpack_and_recv_data seg ctx sent []).emits.map Wire.th_ack = [ctx.ackNum]
      ∧ (unpack_and_recv_data seg ctx sent []).finSigs = 1) := by
  constructor
  · intro hf
    have hs : (hasSyn TH_SYN || hasFin TH_SYN) = true := by decide
    have hlt : ¬ seg.th_seq < ctx.ackNum := by omega
    simp [unpack_and_recv_data, hf, hs, hlt, hexp, drainLoop, mkAckResponse, ← hseq]
  · intro hf
    have hs : (hasSyn TH_FIN || hasFin TH_FIN) = true := by decide
    have hne : ¬ (TH_FIN == TH_SYN) = true := by decide
    have hlt : ¬ seg.th_seq < ctx.ackNum := by omega
    simp [unpack_and_recv_data, hf, hs, hne, hlt, hexp, drainLoop, mkAckResponse,
      finTransition, ← hseq]
    split <;> simp

/-- C7 amended: the duplicate path of the receive pipeline triggers for
a data or FIN segment that is stale (`seq` below rcv_nxt) or whose
`th_ack` HEADER FIELD equals the `ackNum` of some buffered entry — the
source (transport.c line 360) keys the check on `header->th_ack`, not
on the segment's ack-expected value `seq + length` as the original
claim says.  On this path exactly one pure ACK carrying the current
rcv_nxt and the credited window is sent, and nothing else happens: no
delivery, no FIN signal, no queue change, no state or rcv_nxt change. -/
theorem c7_duplicate_absorbed (ctx : Context) (sent ooo : List PacketData) (seg : Wire)
    (hsf : (hasSyn seg.th_flags || hasFin seg.th_flags) = true)
    (hdup : seg.th_seq < ctx.ackNum ∨ ooo.any (fun e => seeker e seg.th_ack) = true) :
    (unpack_and_recv_data seg ctx sent ooo).emits
      = [{ th_seq := ctx.initial_sequence_num, th_ack := ctx.ackNum, th_flags := TH_ACK,
           th_win := ctx.ourWindowSize + (seg.len : Int), len := headerLen }]
    ∧ (unpack_and_recv_data seg ctx sent ooo).appSends = []
    ∧ (unpack_and_recv_data seg ctx sent ooo).finSigs = 0
    ∧ (unpack_and_recv_data seg ctx sent ooo).ooo = ooo
    ∧ (unpack_and_recv_data seg ctx sent ooo).sent = sent
    ∧ (unpack_and_recv_data seg ctx sent ooo).ctx.connection_state = ctx.connection_state
    ∧ (unpack_and_recv_data seg ctx sent ooo).ctx.ackNum = ctx.ackNum
    ∧ (unpack_and_recv_data seg ctx sent ooo).ctx.nextSeqExpected = ctx.nextSeqExpected
    ∧ (unpack_and_recv_data seg ctx sent ooo).ctx.done = ctx.done := by
  by_cases h1 : seg.th_seq < ctx.ackNum
  · simp [unpack_and_recv_data, hsf, h1, mkAckResponse]
  · have h2 : ooo.any (fun e => seeker e seg.th_ack) = true := by
      rcases hdup with h | h
      · exact absurd h h1
      · exact h
    simp [unpack_and_recv_data, hsf, h1, h2, mkAckResponse]

/-- A context with rcv_nxt 400 instantiating the duplicate path. -/
def c7ctx : Context :=
  { done := false, connection_state := CState.ESTABLISHED, initial_sequence_num := 50,
    ourWindowSize := 3000, theirWindowSize := 3072, lastByteReceived := 0,
    nextSeqExpected := 400, lastSentSeq := 51, ackNum := 400 }

/-- A reassembly queue holding one out-of-order entry (seq 500,
`ackNum` 620). -/
def c7matchbuf : List PacketData :=
  [ { packetLen := 120, numTimeout := 0, ackd := false, seqNum := 500, ackNum := 620,
      flags := TH_SYN, win := 3072, waitSecs := { tv_sec := 0, tv_nsec := 0 } } ]

/-- A non-stale segment whose `th_ack` header field matches the buffered
entry's `ackNum` 620, triggering the second duplicate branch. -/
def c7matchseg : Wire :=
  { th_seq := 500, th_ack := 620, th_flags := TH_SYN, th_win := 3072, len := 120 }

/-- Witness for `c7_duplicate_absorbed` through the `th_ack`-match
branch (transport.c lines 360-376): the queue is unchanged, nothing is
delivered, rcv_nxt stays. -/
theorem c7_duplicate_absorbed_witness :
    (unpack_and_recv_data c7matchseg c7ctx [] c7matchbuf).ooo = c7matchbuf
    ∧ (unpack_and_recv_data c7matchseg c7ctx [] c7matchbuf).appSends = []
    ∧ (unpack_and_recv_data c7matchseg c7ctx [] c7matchbuf).ctx.ackNum = c7ctx.ackNum :=
  ⟨(c7_duplicate_absorbed c7ctx [] c7matchbuf c7matchseg (by decide)
      (Or.inr (by decide))).2.2.2.1,
   (c7_duplicate_absorbed c7ctx [] c7matchbuf c7matchseg (by decide)
      (Or.inr (by decide))).2.1,
   (c7_duplicate_absorbed c7ctx [] c7matchbuf c7matchseg (by decide)
      (Or.inr (by decide))).2.2.2.2.2.2.1⟩

/-- Context below which the retransmitted out-of-order segment arrives:
rcv_nxt 100. -/
def c7ctx2 : Context :=
  { done := false, connection_state := CState.ESTABLISHED, initial_sequence_num := 50,
    ourWindowSize := 2000, theirWindowSize := 3072, lastByteReceived := 0,
    nextSeqExpected := 100, lastSentSeq := 51, ackNum := 100 }

/-- A retransmission of the buffered out-of-order segment: seq 500,
length 120, so its ack-expected value 620 is already present in
`c7matchbuf`; its `th_ack` field is 0, as every data segment built by
`pack_and_send_data` carries (the source never sets `th_ack` on data). -/
def c7dupseg : Wire :=
  { th_seq := 500, th_ack := 0, th_flags := TH_SYN, th_win := 3072, len := 120 }

/-- C7 counterexample: the claim says a segment whose ack_expected
(seq + length) is already present in the reassembly queue is absorbed
without inserting into the queue.  The retransmitted segment `c7dupseg`
has ack_expected 620 = the buffered entry's `ackNum`, yet the duplicate
check of transport.c line 360 keys on the segment's `th_ack` field
(0 for data segments), misses, and line 392 re-inserts the segment: the
reassembly queue grows from one to two entries. -/
theorem c7_ack_expected_reinserted_counterexample :
    c7dupseg.th_seq + c7dupseg.len = 620
    ∧ (c7matchbuf.any (fun e => e.ackNum == 620)) = true
    ∧ (unpack_and_recv_data c7dupseg c7ctx2 [] c7matchbuf).ooo.length = 2
    ∧ (unpack_and_recv_data c7dupseg c7ctx2 [] c7matchbuf).ooo ≠ c7matchbuf := by
  decide

/-- Helper for C6: `list_seek` on a queue whose first match is `found`. -/
theorem list_seek_first_match (pre post : List PacketData) (found : PacketData) (a : Nat)
    (hfound : found.ackNum = a) (hpre : ∀ e ∈ pre, e.ackNum ≠ a) :
    list_seek (pre ++ found :: post) a = some found := by
  induction pre with
  | nil => simp [list_seek, seeker, hfound]
  | cons e r ih =>
    have he : (seeker e a) = false := by
      simp [seeker]
      exact hpre e (List.mem_cons_self e r)
    have hr : ∀ x ∈ r, x.ackNum ≠ a := fun x hx => hpre x (List.mem_cons_of_mem e hx)
    simpa [list_seek, List.find?_cons, he] using ih hr

/-- Helper for C6: the in-place `ackd` latch lands on the first match. -/
theorem setAckdFirst_first_match (pre post : List PacketData) (found : PacketData) (a : Nat)
    (hfound : found.ackNum = a) (hpre : ∀ e ∈ pre, e.ackNum ≠ a) :
    setAckdFirst (pre ++ found :: post) a = pre ++ { found with ackd := true } :: post := by
  induction pre with
  | nil => simp [setAckdFirst, seeker, hfound]
  | cons e r ih =>
    have he : (seeker e a) = false := by
      simp [seeker]
      exact hpre e (List.mem_cons_self e r)
    have hr : ∀ x ∈ r, x.ackNum ≠ a := fun x hx => hpre x (List.mem_cons_of_mem e hx)
    simp [setAckdFirst, he, ih hr]

/-- Helper for C6: `markSmaller` over a seq-sorted prefix marks exactly
the entries below the target and leaves the stop entry and everything
after it untouched. -/
theorem markSmaller_append (t : Nat) (pre post : List PacketData) (f : PacketData)
    (hf : ¬ f.seqNum < t)
    (hsorted : List.Pairwise (fun a b => a.seqNum ≤ b.seqNum) pre) :
    markSmaller t (pre ++ f :: post)
      = pre.map (fun e => if e.seqNum < t then { e with ackd := true } else e)
          ++ f :: post := by
  induction pre with
  | nil => simp [markSmaller, hf]
  | cons e r ih =>
    have hrel : ∀ x ∈ r, e.seqNum ≤ x.seqNum := (List.pairwise_cons.mp hsorted).1
    have htail := (List.pairwise_cons.mp hsorted).2
    by_cases he : e.seqNum < t
    · simp [markSmaller, he, ih htail]
    · have hmap : r.map (fun x => if x.seqNum < t then { x with ackd := true } else x) = r := by
        have h1 : ∀ x ∈ r, (if x.seqNum < t then { x with ackd := true } else x) = id x := by
          intro x hx
          have hx2 : ¬ x.seqNum < t := by
            have := hrel x hx
            omega
          simp [hx2]
        simpa using List.map_congr_left h1
      simp [markSmaller, he, hmap]

/-- C6: when a pure ACK arrives whose ack number equals the
`ackNum` (ack-expected) of a live entry — `found`, the first such entry,
on a seq-sorted queue — the receive path sets the `ackd` flag on that
entry and on every entry with strictly smaller `seqNum`, and leaves
every other entry unchanged (cumulative ACK semantics). -/
theorem c6_cumulative_ack (ctx : Context) (ooo pre post : List PacketData)
    (found : PacketData) (seg : Wire)
    (hack : seg.th_flags = TH_ACK)
    (hfound : found.ackNum = seg.th_ack)
    (hpre : ∀ e ∈ pre, e.ackNum ≠ seg.th_ack)
    (hsorted : List.Pairwise (fun a b => a.seqNum ≤ b.seqNum) (pre ++ found :: post)) :
    (unpack_and_recv_data seg ctx (pre ++ found :: post) ooo).sent
      = pre.map (fun e => if e.seqNum < found.seqNum then { e with ackd := true } else e)
          ++ { found with ackd := true } :: post := by
  have hs : (hasSyn TH_ACK || hasFin TH_ACK) = false := by decide
  have hpresorted : List.Pairwise (fun a b => a.seqNum ≤ b.seqNum) pre :=
    (List.pairwise_append.mp hsorted).1
  simp only [unpack_and_recv_data, hack, hs, Bool.false_eq_true, if_false, beq_self_eq_true,
    if_true, ite_true, ite_false]
  simp only [mark_acked, list_seek_first_match pre post found seg.th_ack hfound hpre,
    setAckdFirst_first_match pre post found seg.th_ack hfound hpre]
  exact markSmaller_append found.seqNum pre post { found with ackd := true }
    (by simp) hpresorted

/-- Established context used to exercise the ACK receive path. -/
def c6ctx : Context :=
  { done := false, connection_state := CState.ESTABLISHED, initial_sequence_num := 10,
    ourWindowSize := 3000, theirWindowSize := 3072, lastByteReceived := 0,
    nextSeqExpected := 700, lastSentSeq := 11, ackNum := 700 }

/-- Queue prefix below the acked entry. -/
def c6pre : List PacketData :=
  [ { packetLen := 20, numTimeout := 0, ackd := false, seqNum := 10, ackNum := 30,
      flags := TH_SYN, win := 3072, waitSecs := { tv_sec := 1, tv_nsec := 0 } } ]

/-- The entry whose ack-expected value the ACK matches. -/
def c6found : PacketData :=
  { packetLen := 20, numTimeout := 0, ackd := false, seqNum := 30, ackNum := 50,
    flags := TH_SYN, win := 3072, waitSecs := { tv_sec := 2, tv_nsec := 0 } }

/-- Queue suffix above the acked entry. -/
def c6post : List PacketData :=
  [ { packetLen := 20, numTimeout := 0, ackd := false, seqNum := 50, ackNum := 70,
      flags := TH_SYN, win := 3072, waitSecs := { tv_sec := 3, tv_nsec := 0 } } ]

/-- A pure ACK whose ack number matches `c6found`. -/
def c6seg : Wire :=
  { th_seq := 700, th_ack := 50, th_flags := TH_ACK, th_win := 3072, len := 20 }

/-- Witness for `c6_cumulative_ack` on a concrete three-entry queue. -/
theorem c6_cumulative_ack_witness :
    (unpack_and_recv_data c6seg c6ctx (c6pre ++ c6found :: c6post) []).sent
      = c6pre.map (fun e => if e.seqNum < c6found.seqNum then { e with ackd := true } else e)
          ++ { c6found with ackd := true } :: c6post :=
  c6_cumulative_ack c6ctx [] c6pre c6post c6found c6seg (by decide) (by decide)
    (by decide) (by decide)

/-- Helper: inserting an element below the head of a queue it bounds. -/
theorem insertSorted_of_le_head (x : PacketData) (r : List PacketData)
    (h : ∀ y ∈ r, x.seqNum ≤ y.seqNum) : insertSorted x r = x :: r := by
  cases r with
  | nil => rfl
  | cons y t => simp [insertSorted, h y (List.mem_cons_self y t)]

/-- Helper: sorting a queue already sorted ascending by `seqNum` is the
identity. -/
theorem list_sort_of_pairwise (l : List PacketData)
    (h : List.Pairwise (fun a b => a.seqNum ≤ b.seqNum) l) : list_sort l = l := by
  induction l with
  | nil => rfl
  | cons x r ih =>
    have h1 : ∀ y ∈ r, x.seqNum ≤ y.seqNum := (List.pairwise_cons.mp h).1
    have h2 := (List.pairwise_cons.mp h).2
    rw [list_sort, ih h2, insertSorted_of_le_head x r h1]

/-- C9: when the timeout fires for the scan-selected entry and that
entry has already been retransmitted six times, the entry is deleted
from the (seq-sorted) retransmission queue, nothing is retransmitted,
and the connection keeps running (`done` stays false) — except that
dropping a FIN entry in LAST_ACK, FINWAIT1 or FINWAIT2 closes the
connection and sets `done`. -/
theorem c9_retry_exhaustion_drop (ctx : Context) (sent : List PacketData) (now : Timespec)
    (trig : PacketData)
    (htrig : chosenTrig sent = some trig)
    (h6 : trig.numTimeout = 6)
    (hdone : ctx.done = false)
    (hsorted : List.Pairwise (fun a b => a.seqNum ≤ b.seqNum) sent) :
    (timeoutStep now ctx sent).2.2 = []
    ∧ (timeoutStep now ctx sent).2.1 = sent.eraseIdx (locateSeq sent trig.seqNum)
    ∧ ((timeoutStep now ctx sent).1.done = true
        ↔ (trig.flags == TH_FIN && closing3 ctx.connection_state) = true)
    ∧ ((trig.flags == TH_FIN && closing3 ctx.connection_state) = false →
        (timeoutStep now ctx sent).1.connection_state = ctx.connection_state)
    ∧ ((trig.flags == TH_FIN && closing3 ctx.connection_state) = true →
        (timeoutStep now ctx sent).1.connection_state = CState.CLOSED) := by
  have h6b : (trig.numTimeout == 6) = true := by simp [h6]
  have herase : list_sort (sent.eraseIdx (locateSeq sent trig.seqNum))
      = sent.eraseIdx (locateSeq sent trig.seqNum) :=
    list_sort_of_pairwise _ (hsorted.sublist (List.eraseIdx_sublist _ _))
  by_cases hfin : (trig.flags == TH_FIN && closing3 ctx.connection_state) = true
  · simp [timeoutStep, htrig, h6b, hfin, herase]
  · simp [timeoutStep, htrig, h6b, hfin, herase, hdone]

/-- Established context for the timeout-path theorems. -/
def c4ctx : Context :=
  { done := false, connection_state := CState.ESTABLISHED, initial_sequence_num := 1,
    ourWindowSize := 3000, theirWindowSize := 3072, lastByteReceived := 0,
    nextSeqExpected := 1, lastSentSeq := 2, ackNum := 1 }

/-- First retransmit-queue entry, deadline 10s (the scan selects it). -/
def c4e1 : PacketData :=
  { packetLen := 536, numTimeout := 0, ackd := false, seqNum := 1, ackNum := 537,
    flags := TH_SYN, win := 3072, waitSecs := { tv_sec := 10, tv_nsec := 0 } }

/-- Second retransmit-queue entry, deadline 50s. -/
def c4e2 : PacketData :=
  { packetLen := 536, numTimeout := 0, ackd := false, seqNum := 537, ackNum := 1073,
    flags := TH_SYN, win := 3072, waitSecs := { tv_sec := 50, tv_nsec := 0 } }

/-- C4 counterexample: the claim says only the triggering entry gets its
deadline refreshed.  On a timeout at 100s with entries deadlined 10s
(triggering) and 50s, the source re-sends the second entry through
`send_packet`, which restamps its deadline to 101s — so the subsequent
entry does not keep its deadline. -/
theorem c4_subsequent_deadline_counterexample :
    ((timeoutStep { tv_sec := 100, tv_nsec := 0 } c4ctx [c4e1, c4e2]).2.1[1]?).map
        (fun e => e.waitSecs) = some { tv_sec := 101, tv_nsec := 0 }
    ∧ c4e2.waitSecs = { tv_sec := 50, tv_nsec := 0 }
    ∧ ({ tv_sec := 101, tv_nsec := 0 } : Timespec) ≠ { tv_sec := 50, tv_nsec := 0 } := by
  decide

/-- C4 amended: on a timeout in a non-closing state with fewer than six
retries on the triggering entry (at queue index `i`), the engine
retransmits that entry and every later entry in queue (seq) order;
`numTimeout` is incremented on the triggering entry only, but the
deadline of every retransmitted entry — triggering and subsequent — is
refreshed to now + 1s; entries before the triggering one are untouched
and the context is unchanged. -/
theorem c4_goback_retransmit (ctx : Context) (sent : List PacketData) (now : Timespec)
    (trig : PacketData) (i : Nat)
    (htrig : chosenTrig sent = some trig)
    (hnc : closing4 ctx.connection_state = false)
    (hlt : trig.numTimeout < 6)
    (hi : locateSeq sent trig.seqNum = i)
    (hget : sent[i]? = some trig) :
    (timeoutStep now ctx sent).1 = ctx
    ∧ (timeoutStep now ctx sent).2.2
        = trig.toWire :: (sent.drop (i + 1)).map PacketData.toWire
    ∧ (∀ j, j < i → (timeoutStep now ctx sent).2.1[j]? = sent[j]?)
    ∧ (timeoutStep now ctx sent).2.1[i]?
        = some { trig with waitSecs := stamp now, numTimeout := trig.numTimeout + 1 }
    ∧ (∀ j, i < j → (timeoutStep now ctx sent).2.1[j]?
        = sent[j]?.map (fun e => { e with waitSecs := stamp now })) := by
  have h6 : (trig.numTimeout == 6) = false := by
    simp only [beq_eq_false_iff_ne, ne_eq]
    omega
  have hilen : i < sent.length := by
    by_contra hc
    rw [List.getElem?_eq_none (by omega)] at hget
    cases hget
  have htake : (sent.take i).length = i := by
    simp only [List.length_take]
    omega
  simp only [timeoutStep, htrig, hnc, h6, Bool.or_self, Bool.false_eq_true, if_false, hi]
  refine ⟨trivial, trivial, ?_, ?_, ?_⟩
  · intro j hj
    rw [List.getElem?_append_left (by omega : j < (sent.take i).length)]
    exact List.getElem?_take_of_lt hj
  · rw [List.getElem?_append_right (le_of_eq htake)]
    simp [htake]
  · intro j hj
    rw [List.getElem?_append_right (by omega : (sent.take i).length ≤ j)]
    rw [htake]
    have hji : j - i = (j - i - 1) + 1 := by omega
    rw [hji]
    simp only [List.getElem?_cons_succ, refreshAll, List.getElem?_map, List.getElem?_drop]
    have hidx : i + 1 + (j - i - 1) = j := by omega
    rw [hidx]

/-- Witness for `c4_goback_retransmit`: on the two-entry queue the
triggering entry at index 0 comes back with its retry count bumped and
its deadline restamped. -/
theorem c4_goback_retransmit_witness :
    (timeoutStep { tv_sec := 200, tv_nsec := 0 } c4ctx [c4e1, c4e2]).2.1[0]?
      = some { c4e1 with waitSecs := stamp { tv_sec := 200, tv_nsec := 0 },
                         numTimeout := c4e1.numTimeout + 1 } :=
  (c4_goback_retransmit c4ctx [c4e1, c4e2] { tv_sec := 200, tv_nsec := 0 } c4e1 0
    (by decide) (by decide) (by decide) (by decide) (by decide)).2.2.2.1

/-- A FIN entry exhausted after six retransmissions. -/
def c9fin : PacketData :=
  { packetLen := 20, numTimeout := 6, ackd := false, seqNum := 900, ackNum := 920,
    flags := TH_FIN, win := 3072, waitSecs := { tv_sec := 7, tv_nsec := 0 } }

/-- Context in FINWAIT1 for the retry-exhaustion witness. -/
def c9ctx : Context :=
  { done := false, connection_state := CState.FINWAIT1, initial_sequence_num := 900,
    ourWindowSize := 3072, theirWindowSize := 3072, lastByteReceived := 0,
    nextSeqExpected := 1, lastSentSeq := 901, ackNum := 1 }

/-- Witness for `c9_retry_exhaustion_drop`: the exhausted FIN entry is
deleted from the queue without retransmission. -/
theorem c9_retry_exhaustion_drop_witness :
    (timeoutStep { tv_sec := 9, tv_nsec := 0 } c9ctx [c9fin]).2.2 = []
    ∧ (timeoutStep { tv_sec := 9, tv_nsec := 0 } c9ctx [c9fin]).2.1
        = ([c9fin] : List PacketData).eraseIdx (locateSeq [c9fin] c9fin.seqNum) :=
  ⟨(c9_retry_exhaustion_drop c9ctx [c9fin] { tv_sec := 9, tv_nsec := 0 } c9fin
      (by decide) (by decide) (by decide) (by decide)).1,
   (c9_retry_exhaustion_drop c9ctx [c9fin] { tv_sec := 9, tv_nsec := 0 } c9fin
      (by decide) (by decide) (by decide) (by decide)).2.1⟩

/-- An in-order data segment at seq 300 with 100 payload octets. -/
def c5segData : Wire :=
  { th_seq := 300, th_ack := 0, th_flags := TH_SYN, th_win := 3072, len := 120 }

/-- Witness for `c5_inorder_advance_amended` on a concrete in-order data
segment. -/
theorem c5_inorder_advance_amended_witness :
    (unpack_and_recv_data c5segData c5ctx [] []).ctx.ackNum = c5ctx.ackNum + c5segData.len :=
  ((c5_inorder_advance_amended c5ctx [] c5segData (by decide) (by decide)).1 (by decide)).1

/-- Helper: `send_packet` transmits the packet image whether or not the
entry was already queued. -/
theorem send_packet_new_emits (pd : PacketData) (sent : List PacketData) :
    (send_packet_new pd sent).2 = [pd.toWire] := by
  unfold send_packet_new
  split <;> rfl

/-- Helper: the first segment `pack_and_send_data` emits carries the
current `initial_sequence_num` of the context it starts from. -/
theorem packLoop_first_seq (now : Timespec) (n : Nat) (hn : 0 < n) (ctx : Context)
    (sent : List PacketData) :
    ((packLoop now n ctx sent).2.2.head?).map Wire.th_seq
      = some ctx.initial_sequence_num := by
  rw [packLoop]
  have hne : ¬ n = 0 := by omega
  simp [hne, send_packet_new_emits, mkDataEntry, PacketData.toWire]

/-- C10: sending a FIN on application close does not advance the send
sequence counter: the FIN retransmit entry has ack-expected equal to
seq + 20 (the header length) rather than seq + 1, the counter
`initial_sequence_num` (used by the source as the next send sequence
number) is unchanged by the close, and the first data segment packed
after the FIN carries the very sequence number the FIN used. -/
theorem c10_fin_does_not_advance_send_seq (ctx : Context) (sent : List PacketData)
    (now now2 : Timespec) :
    (stcp_fin_received_from_app now ctx sent).2.2.2.ackNum
      = (stcp_fin_received_from_app now ctx sent).2.2.2.seqNum + headerLen
    ∧ (stcp_fin_received_from_app now ctx sent).2.2.2.ackNum
      ≠ (stcp_fin_received_from_app now ctx sent).2.2.2.seqNum + 1
    ∧ (stcp_fin_received_from_app now ctx sent).1.initial_sequence_num
      = ctx.initial_sequence_num
    ∧ (∀ n, 0 < n →
        ((pack_and_send_data now2 n (stcp_fin_received_from_app now ctx sent).1
            (stcp_fin_received_from_app now ctx sent).2.1).2.2.head?).map Wire.th_seq
          = some (stcp_fin_received_from_app now ctx sent).2.2.2.seqNum) := by
  refine ⟨?_, ?_, ?_, ?_⟩
  · simp [stcp_fin_received_from_app]
  · simp [stcp_fin_received_from_app, headerLen]
  · simp only [stcp_fin_received_from_app]
    split <;> rfl
  · intro n hn
    rw [pack_and_send_data, packLoop_first_seq now2 n hn]
    simp only [stcp_fin_received_from_app]
    split <;> rfl

/-- Witness for `c10_fin_does_not_advance_send_seq`: packing 100 octets
after the close re-uses the FIN sequence number. -/
theorem c10_fin_does_not_advance_send_seq_witness :
    ((pack_and_send_data { tv_sec := 8, tv_nsec := 0 } 100
        (stcp_fin_received_from_app { tv_sec := 5, tv_nsec := 0 } c4ctx []).1
        (stcp_fin_received_from_app { tv_sec := 5, tv_nsec := 0 } c4ctx []).2.1).2.2.head?).map
      Wire.th_seq
      = some (stcp_fin_received_from_app { tv_sec := 5, tv_nsec := 0 } c4ctx []).2.2.2.seqNum :=
  (c10_fin_does_not_advance_send_seq c4ctx [] { tv_sec := 5, tv_nsec := 0 }
    { tv_sec := 8, tv_nsec := 0 }).2.2.2 100 (by decide)

/-- Helper: the FIN state transition leaves the window untouched. -/
theorem finTransition_window (ctx : Context) :
    (finTransition ctx).ourWindowSize = ctx.ourWindowSize := by
  unfold finTransition
  split <;> rfl

/-- Helper: the reassembly drain never touches the window (transport.c
lines 425-476 contain no `ourWindowSize` update). -/
theorem drainLoop_window (hseq : Nat) (ctx : Context) (ooo : List PacketData) :
    (drainLoop hseq ctx ooo).ctx.ourWindowSize = ctx.ourWindowSize := by
  induction ooo generalizing ctx with
  | nil => rfl
  | cons e rest ih =>
    by_cases h1 : e.seqNum = hseq
    · simp [drainLoop, h1, ih]
    · by_cases h2 : hseq < e.seqNum
      · by_cases h3 : (e.flags == TH_SYN) = true
        · simp [drainLoop, h1, h2, h3, ih]
        · by_cases h4 : (e.flags == TH_FIN) = true
          · simp [drainLoop, h1, h2, h3, h4, ih, finTransition_window]
          · simp [drainLoop, h1, h2, h3, h4, ih]
      · simp [drainLoop, h1, h2, ih]

/-- Helper: processing one received segment either leaves the window
unchanged or credits back exactly the octet count of the segment (every
`ourWindowSize += totalPackLen` site adds the full received length, and
each control path contains at most one such credit). -/
theorem unpack_window (seg : Wire) (ctx : Context) (sent ooo : List PacketData) :
    (unpack_and_recv_data seg ctx sent ooo).ctx.ourWindowSize = ctx.ourWindowSize
    ∨ (unpack_and_recv_data seg ctx sent ooo).ctx.ourWindowSize
        = ctx.ourWindowSize + (seg.len : Int) := by
  by_cases hsf : (hasSyn seg.th_flags || hasFin seg.th_flags) = true
  · by_cases h1 : seg.th_seq < ctx.ackNum
    · right
      simp [unpack_and_recv_data, hsf, h1]
    · by_cases h2 : ooo.any (fun e => seeker e seg.th_ack) = true
      · right
        simp [unpack_and_recv_data, hsf, h1, h2]
      · by_cases h3 : ctx.nextSeqExpected = seg.th_seq
        · by_cases h4 : (seg.th_flags == TH_SYN) = true
          · right
            simp [unpack_and_recv_data, hsf, h1, h2, h3, h4, drainLoop_window]
          · by_cases h5 : (seg.th_flags == TH_FIN) = true
            · left
              simp [unpack_and_recv_data, hsf, h1, h2, h3, h4, h5, drainLoop_window,
                finTransition_window]
            · left
              simp [unpack_and_recv_data, hsf, h1, h2, h3, h4, h5, drainLoop_window]
        · right
          simp [unpack_and_recv_data, hsf, h1, h2, h3]
  · by_cases hack : (seg.th_flags == TH_ACK) = true
    · right
      simp [unpack_and_recv_data, hsf, hack]
    · left
      simp [unpack_and_recv_data, hsf, hack]

/-- Helper: `cmin` is bounded by its first argument. -/
theorem cmin_le_left (x y : Int) : cmin x y ≤ x := by
  unfold cmin
  split <;> omega

/-- Helper: the read cap passed to `stcp_network_recv` never exceeds the
current window, in either buffer-position branch. -/
theorem maxPackLenOf_le (ctx : Context) : maxPackLenOf ctx ≤ ctx.ourWindowSize := by
  unfold maxPackLenOf cmin
  dsimp only
  split_ifs <;> omega

/-- Helper: the acked-entry sweep only moves the connection state. -/
theorem sweepCtx_window (ctx : Context) (l : List PacketData) :
    (sweepCtx ctx l).ourWindowSize = ctx.ourWindowSize := by
  induction l generalizing ctx with
  | nil => rfl
  | cons e rest ih =>
    simp only [sweepCtx]
    split_ifs <;> simp [ih]

/-- Helper: the sweep phase preserves the window. -/
theorem sweepPhase_window (s : EngineState) :
    (sweepPhase s).ctx.ourWindowSize = s.ctx.ourWindowSize := by
  simp [sweepPhase, sweepCtx_window]

/-- Helper: the timeout handler never touches the window. -/
theorem timeoutStep_window (now : Timespec) (ctx : Context) (sent : List PacketData) :
    (timeoutStep now ctx sent).1.ourWindowSize = ctx.ourWindowSize := by
  unfold timeoutStep
  rcases chosenTrig sent with _ | trig
  · rfl
  · simp only
    split_ifs <;> rfl

/-- Helper: packing application data never touches the window. -/
theorem packLoop_window (now : Timespec) (n : Nat) (ctx : Context)
    (sent : List PacketData) :
    (packLoop now n ctx sent).1.ourWindowSize = ctx.ourWindowSize := by
  induction n using Nat.strong_induction_on generalizing ctx sent with
  | _ n ih =>
    rw [packLoop]
    by_cases h : n = 0
    · simp [h]
    · simp only [h, dite_false]
      rw [ih _ (by simp only [maxPackDataLen]; split <;> omega)]

/-- Helper: the application-close handler never touches the window. -/
theorem fin_from_app_window (now : Timespec) (ctx : Context) (sent : List PacketData) :
    (stcp_fin_received_from_app now ctx sent).1.ourWindowSize = ctx.ourWindowSize := by
  unfold stcp_fin_received_from_app
  split <;> rfl

/-- Helper: the bounds are preserved across a NETWORK_DATA dispatch when
the read respects the cap. -/
theorem networkStep_bounds (s : EngineState) (seg : Wire)
    (hw0 : 0 ≤ s.ctx.ourWindowSize) (hw1 : s.ctx.ourWindowSize ≤ LOCALRECVLEN)
    (hlen : (seg.len : Int) ≤ s.ctx.ourWindowSize) :
    0 ≤ (networkStep s seg).ctx.ourWindowSize
    ∧ (networkStep s seg).ctx.ourWindowSize ≤ LOCALRECVLEN := by
  have hnn : (0 : Int) ≤ (seg.len : Int) := Int.ofNat_nonneg seg.len
  unfold networkStep
  by_cases hl : s.ctx.lastByteReceived ≥ LOCALRECVLEN
  · by_cases hp : 0 < seg.len
    · rcases unpack_window seg
          { s.ctx with lastByteReceived := 0 + (seg.len : Int),
                       ourWindowSize := s.ctx.ourWindowSize - (seg.len : Int) }
          s.sent s.ooo with h | h
      · simp only [hl, hp, if_true, if_pos, ite_true]
        rw [h]
        constructor <;> simp <;> omega
      · simp only [hl, hp, if_true, if_pos, ite_true]
        rw [h]
        constructor <;> simp <;> omega
    · simp only [hl, hp, if_true, if_pos, ite_true, ite_false, if_neg]
      constructor <;> simp <;> omega
  · by_cases hp : 0 < seg.len
    · rcases unpack_window seg
          { s.ctx with lastByteReceived := s.ctx.lastByteReceived + (seg.len : Int),
                       ourWindowSize := s.ctx.ourWindowSize - (seg.len : Int) }
          s.sent s.ooo with h | h
      · simp only [hl, hp, if_neg, ite_false, if_pos, ite_true]
        rw [h]
        constructor <;> simp <;> omega
      · simp only [hl, hp, if_neg, ite_false, if_pos, ite_true]
        rw [h]
        constructor <;> simp <;> omega
    · simp only [hl, hp, if_neg, ite_false]
      constructor <;> simp <;> omega

/-- C8: in every reachable engine state the local receive window stays
between 0 and its initial value LOCALRECVLEN (3072): every network read
is capped by the window (`ValidEvent`), each receive path credits back
at most what was debited, and no other dispatch touches the window. -/
theorem c8_local_window_bounded (s : EngineState) (h : Reachable s) :
    0 ≤ s.ctx.ourWindowSize ∧ s.ctx.ourWindowSize ≤ LOCALRECVLEN := by
  induction h with
  | init iss rcv0 =>
    constructor <;> simp [initState, LOCALRECVLEN]
  | step s e hr hv ih =>
    cases e with
    | net seg =>
      have hlen : (seg.len : Int) ≤ (sweepPhase s).ctx.ourWindowSize := by
        rw [sweepPhase_window]
        exact le_trans hv (maxPackLenOf_le s.ctx)
      have h0 : 0 ≤ (sweepPhase s).ctx.ourWindowSize := by
        rw [sweepPhase_window]
        exact ih.1
      have h1 : (sweepPhase s).ctx.ourWindowSize ≤ LOCALRECVLEN := by
        rw [sweepPhase_window]
        exact ih.2
      exact networkStep_bounds (sweepPhase s) seg h0 h1 hlen
    | timeout now =>
      simp only [stepFn]
      rw [timeoutStep_window, sweepPhase_window]
      exact ih
    | appData now n =>
      simp only [stepFn, pack_and_send_data]
      rw [packLoop_window, sweepPhase_window]
      exact ih
    | appClose now =>
      simp only [stepFn]
      rw [fin_from_app_window, sweepPhase_window]
      exact ih

/-- Witness for `c8_local_window_bounded` at the post-handshake state. -/
theorem c8_local_window_bounded_witness :
    0 ≤ (initState 100 200).ctx.ourWindowSize
    ∧ (initState 100 200).ctx.ourWindowSize ≤ LOCALRECVLEN :=
  c8_local_window_bounded (initState 100 200) (Reachable.init 100 200)

end STCP
